import Mathlib

/-!
# Verification of the geojsonchat core (`app.py`)

A shallow embedding, in Lean 4, of the analytical core of `app.py`:

* `normalize` — the dialect-normalization step at the end of
  `fetch_geojson_data` (lines 26–34);
* `analyze_geojson` — the deterministic counting analysis (lines 53–91);
* `sample_attribute_names` / `data_summary_lines` — the per-dataset profile
  summary built inside `process_query` (lines 99–104);
* `process_query` — prompt assembly and delegation to the reasoning service
  (lines 93–118), with the external completion service passed in as an
  opaque `String → String` function;
* `load_geojsons` — the concurrent loader (lines 120–124), with the network
  abstracted as a `String → Except ε Json` function and `asyncio.gather`
  modelled by `gatherResults`.

JSON documents are modelled by the mutual inductive `Json`; numbers are
modelled as `Int` (every numeric literal relevant to the claims is an
integer).  Python dictionaries become association lists looked up by first
match; the payloads built below never carry duplicate keys, matching Python
dicts.  Fallible Python code (exceptions) is modelled with `Option`/`Except`.
-/

namespace GeoChat

mutual
/-- A JSON value as produced by `response.json()` in `app.py`.  Numbers are
modelled as integers; Python booleans are a separate constructor (note that
Python's `isinstance(value, (str, int, float))` is `True` for booleans, which
the embedding of `analyze_geojson` reproduces via `valueRepr`). -/
inductive Json where
  | null : Json
  | bool : Bool → Json
  | num : Int → Json
  | str : String → Json
  | arr : JsonList → Json
  | obj : JsonObj → Json
deriving Repr, DecidableEq

/-- A JSON array, spelled out so that decidable equality can be derived. -/
inductive JsonList where
  | nil : JsonList
  | cons : Json → JsonList → JsonList
deriving Repr, DecidableEq

/-- A JSON object: an ordered sequence of key/value fields. -/
inductive JsonObj where
  | nil : JsonObj
  | cons : String → Json → JsonObj → JsonObj
deriving Repr, DecidableEq
end

/-- View a `JsonList` as a Lean list. -/
def JsonList.toList : JsonList → List Json
  | .nil => []
  | .cons x xs => x :: xs.toList

/-- Build a `JsonList` from a Lean list. -/
def JsonList.ofList : List Json → JsonList
  | [] => .nil
  | x :: xs => .cons x (JsonList.ofList xs)

/-- View a `JsonObj` as an association list. -/
def JsonObj.toList : JsonObj → List (String × Json)
  | .nil => []
  | .cons k v rest => (k, v) :: rest.toList

/-- Build a `JsonObj` from an association list. -/
def JsonObj.ofList : List (String × Json) → JsonObj
  | [] => .nil
  | (k, v) :: rest => .cons k v (JsonObj.ofList rest)

/-- Convenience constructor for a JSON array. -/
def Json.array (l : List Json) : Json := .arr (JsonList.ofList l)

/-- Convenience constructor for a JSON object. -/
def Json.object (l : List (String × Json)) : Json := .obj (JsonObj.ofList l)

/-- Python `d.get(k)` on a dict: the value bound to `k`, if any.  On a
non-object this is `none` (the Python code only calls `.get` on dicts). -/
def Json.get (j : Json) (k : String) : Option Json :=
  match j with
  | .obj l => l.toList.lookup k
  | _ => none

/-- Python `k in d`: key membership in a dict. -/
def Json.hasKey (j : Json) (k : String) : Bool :=
  (j.get k).isSome

/-- Python `d.get(k, default)`. -/
def Json.getD (j : Json) (k : String) (d : Json) : Json :=
  (j.get k).getD d

/-- The dialect-normalization step of `fetch_geojson_data` (app.py lines
26–34): if the parsed payload has both a `features` key and a `geometryType`
key it is taken to be an ArcGIS REST response and is rebuilt as
`{"type": "FeatureCollection", "features": data["features"]}`; otherwise the
payload is returned unchanged.  There is no other branch in the source: no
shape validation and no error path exists. -/
def normalize (data : Json) : Json :=
  if data.hasKey "features" && data.hasKey "geometryType" then
    Json.object [("type", Json.str "FeatureCollection"),
                 ("features", data.getD "features" Json.null)]
  else data

/-- Python's `needle in hay` on strings: substring containment. -/
def isSubstr (needle hay : String) : Bool :=
  hay.data.tails.any (fun t => needle.data.isPrefixOf t)

/-- Python `str.lower()` (the query strings involved are ASCII). -/
def pyLower (s : String) : String := String.mk (s.data.map Char.toLower)

/-- Split a character list at every occurrence of `sep`. -/
def splitChars (sep : Char) : List Char → List (List Char)
  | [] => [[]]
  | x :: xs =>
      match splitChars sep xs with
      | [] => [[]]
      | cur :: rest =>
          if x = sep then [] :: cur :: rest else (x :: cur) :: rest

/-- Python `s.split(':')` (app.py line 84): split at every colon. -/
def pySplitColon (s : String) : List String :=
  (splitChars ':' s.data).map String.mk

/-- Python `sep.join(parts)`. -/
def joinWith (sep : String) : List String → String
  | [] => ""
  | [x] => x
  | x :: xs => x ++ sep ++ joinWith sep xs

/-- The counting-intent keywords of `analyze_geojson` (app.py line 58). -/
def count_keywords : List String := ["how many", "count", "number of"]

/-- `any(keyword in query_lower for keyword in count_keywords)`
(app.py line 60), applied to the lower-cased query. -/
def hasCountKeyword (query : String) : Bool :=
  count_keywords.any (fun k => isSubstr k (pyLower query))

/-- `geojson.get('features', [])` followed by iteration (app.py line 65):
the feature list of one dataset, or `[]` when absent. -/
def getFeatures (g : Json) : List Json :=
  match g.get "features" with
  | some (.arr l) => l.toList
  | _ => []

/-- `feature.get('properties', {})` (app.py lines 73 and 85): the property
fields of a feature, or an empty mapping when absent. -/
def getProps (f : Json) : List (String × Json) :=
  match f.get "properties" with
  | some (.obj l) => l.toList
  | _ => []

/-- `feature.get('properties', {}).get(key)` (app.py line 85). -/
def lookupProp (f : Json) (k : String) : Option Json :=
  (getProps f).lookup k

/-- `features_to_count` (app.py lines 63–65): all features of all loaded
datasets, concatenated in dataset order. -/
def features_of (datasets : List Json) : List Json :=
  (datasets.map getFeatures).flatten

/-- The Python f-string rendering `f"{key}:{value}"` uses for a scalar
property value (app.py lines 75–76): the guard
`isinstance(value, (str, int, float))` admits strings, ints, floats — and
booleans, which Python treats as ints and renders `True`/`False`.  Non-scalar
values (`None`, lists, dicts) are skipped (`none`). -/
def valueRepr : Json → Option String
  | .str s => some s
  | .num n => some (toString n)
  | .bool b => some (if b then "True" else "False")
  | _ => none

/-- One `Counter` increment, preserving Python's dict insertion order: a new
key is appended at the end, an existing key keeps its position. -/
def counterAdd (c : List (String × Nat)) (k : String) : List (String × Nat) :=
  match c with
  | [] => [(k, 1)]
  | (k₀, n) :: rest =>
      if k₀ = k then (k₀, n + 1) :: rest else (k₀, n) :: counterAdd rest k

/-- `property_counts` (app.py lines 70–76): tally `f"{key}:{value}"` over
every scalar property of every feature, in encounter order. -/
def property_counts (features : List Json) : List (String × Nat) :=
  features.foldl
    (fun c f =>
      (getProps f).foldl
        (fun c kv =>
          match valueRepr kv.2 with
          | some v => counterAdd c (kv.1 ++ ":" ++ v)
          | none => c)
        c)
    []

/-- Stable insertion into a count-descending list: the inserted element goes
after every element of count ≥ its own, so earlier-encountered keys win
ties, matching `Counter.most_common`. -/
def insertByCount (x : String × Nat) : List (String × Nat) → List (String × Nat)
  | [] => [x]
  | y :: ys => if x.2 > y.2 then x :: y :: ys else y :: insertByCount x ys

/-- `property_counts.most_common(5)` keys (app.py line 79): sort by count
descending, ties in first-encountered order, keep the first five keys. -/
def potential_matches (features : List Json) : List String :=
  (((property_counts features).foldl (fun acc x => insertByCount x acc) []).take 5).map
    Prod.fst

/-- The match loop of app.py lines 82–83: the first candidate whose
lower-casing is a substring of the lower-cased query. -/
def firstMatch (query_lower : String) : List String → Option String
  | [] => none
  | m :: ms =>
      if isSubstr (pyLower m) query_lower then some m else firstMatch query_lower ms

/-- `feature.get('properties', {}).get(key) == value` (app.py line 85), with
`value` the string split out of the matched `"key:value"` entry.  Python's
`==` across types is plain (dis)equality here: a numeric or boolean property
value never equals a string. -/
def featureMatches (key value : String) (f : Json) : Bool :=
  decide (lookupProp f key = some (Json.str value))

/-- The count of app.py line 85. -/
def countMatch (features : List Json) (key value : String) : Nat :=
  (features.filter (featureMatches key value)).length

/-- The fallthrough reply of app.py line 91. -/
def no_analysis_msg : String :=
  "I couldn\x27t perform a specific analysis for this query. Please try asking about counts or numbers of specific features or properties in the data."

/-- `analyze_geojson` (app.py lines 53–91).  `none` models the uncaught
`ValueError` Python raises at line 84 when the matched `"key:value"` entry
splits into more than two fields (a key or value itself containing `:`);
every other path returns a reply string.  With a counting keyword present:
if there are no features at all, control falls through to the generic
message of line 91; otherwise the first of the five most frequent
`key:value` strings found (lower-cased) inside the query drives an exact
count, and with no such match the total feature count is reported. -/
def analyze_geojson (datasets : List Json) (query : String) : Option String :=
  let query_lower := pyLower query
  if hasCountKeyword query then
    let features := features_of datasets
    if features.isEmpty then
      some no_analysis_msg
    else
      match firstMatch query_lower (potential_matches features) with
      | some m =>
          match pySplitColon m with
          | [key, value] =>
              some ("Based on the analysis, there are " ++
                toString (countMatch features key value) ++
                " features where " ++ key ++ " is " ++ value ++ ".")
          | _ => none
      | none =>
          some ("The total number of features across all provided GeoJSON datasets is " ++
            toString features.length ++ ".")
  else some no_analysis_msg

/-- Python's `repr` of a list of strings, as interpolated by the f-string of
app.py line 104 (`{list(sample_properties.keys())}`). -/
def pyStrListRepr (xs : List String) : String :=
  "[" ++ joinWith ", " (xs.map (fun s => "\x27" ++ s ++ "\x27")) ++ "]"

/-- The attribute names `process_query` presents for one dataset (app.py
line 103): `list(geojson['features'][0].get('properties', {}).keys())` — the
property keys of the first feature only.  Empty for a featureless dataset
(which line 102 skips). -/
def sample_attribute_names (g : Json) : List String :=
  match getFeatures g with
  | [] => []
  | f :: _ => (getProps f).map Prod.fst

/-- `data_summary` (app.py lines 99–104): one line per dataset having at
least one feature. -/
def data_summary_lines (datasets : List Json) : List String :=
  datasets.enum.filterMap (fun p =>
    let fc := (getFeatures p.2).length
    if fc > 0 then
      some ("Dataset " ++ toString (p.1 + 1) ++ ": " ++ toString fc ++
        " features. Sample properties: " ++ pyStrListRepr (sample_attribute_names p.2))
    else none)

/-- `context` (app.py lines 95–96). -/
def query_context (datasets : List Json) : String :=
  "You are a geospatial data expert. The user has provided " ++
  toString datasets.length ++
  " GeoJSON datasets. Analyze the query and provide insights based on the geospatial data available."

/-- `ai_prompt` (app.py line 112). -/
def build_ai_prompt (prompt : String) (datasets : List Json)
    (analysis_result : String) : String :=
  query_context datasets ++ "\n\nData Summary:\n" ++
  joinWith "\n" (data_summary_lines datasets) ++
  "\n\nUser query: " ++ prompt ++ "\n\nAnalysis result: " ++ analysis_result

/-- `process_query` (app.py lines 93–118).  The Gemini chat session is the
opaque `delegate : String → String`; the code calls it unconditionally (line
116) on the assembled prompt and appends the deterministic analysis to its
reply (line 118).  `none` models the one way the call can be skipped: the
analysis itself raising (see `analyze_geojson`), which propagates out of
`process_query` before line 116 is reached. -/
def process_query (delegate : String → String) (prompt : String)
    (datasets : List Json) : Option String :=
  match analyze_geojson datasets prompt with
  | none => none
  | some analysis_result =>
      some (delegate (build_ai_prompt prompt datasets analysis_result) ++
        "\n\n" ++ analysis_result)

/-- The whitespace characters Python's `str.strip()` removes (ASCII range;
URLs are ASCII strings). -/
def isPythonSpace (c : Char) : Bool :=
  c = ' ' || c = '\t' || c = '\n' || c = '\r' || c = '\x0b' || c = '\x0c'

/-- Truthiness of `url.strip()` (app.py line 123): the URL survives the
filter exactly when some character is not whitespace. -/
def keepUrl (u : String) : Bool :=
  u.data.any (fun c => !isPythonSpace c)

/-- `asyncio.gather(*tasks)` with its default `return_exceptions=False`
(app.py line 124): if every task succeeds, the list of results in task
order; if any task raises, the whole gather raises — the caller never sees
the successful siblings.  (At runtime the chronologically first failure is
the one propagated; the embedding picks the first failure in task order,
which is immaterial to the all-or-nothing behaviour the claims concern.) -/
def gatherResults {ε α : Type} : List (Except ε α) → Except ε (List α)
  | [] => .ok []
  | .error e :: _ => .error e
  | .ok a :: rest => (gatherResults rest).map (fun l => a :: l)

/-- `fetch_geojson_data` (app.py lines 20–34).  The network round trip —
`session.get`, `raise_for_status` (non-2xx), and `response.json()` (parse
failure) — is abstracted as `net : String → Except ε Json`; a successful
body then passes through `normalize`. -/
def fetch_geojson_data {ε : Type} (net : String → Except ε Json)
    (url : String) : Except ε Json :=
  (net url).map normalize

/-- `load_geojsons` (app.py lines 120–124): dispatch `fetch_geojson_data`
for each URL whose `strip()` is truthy, then gather. -/
def load_geojsons {ε : Type} (net : String → Except ε Json)
    (urls : List String) : Except ε (List Json) :=
  gatherResults ((urls.filter keepUrl).map (fetch_geojson_data net))

/-- Modelled from the spec: the repository has no Statistics Engine —
`app.py` contains no mean/median/sum computation — so the aggregate
operation of spec §4.4 is modelled from the spec's words.  The non-null
numeric values a dataset's features supply for an attribute, in feature
order. -/
def numericValues (features : List Json) (attr : String) : List Int :=
  features.filterMap (fun f =>
    match lookupProp f attr with
    | some (.num n) => some n
    | _ => none)

/-- Stable ascending insertion, for the median. -/
def insertSorted (x : Int) : List Int → List Int
  | [] => [x]
  | y :: ys => if x ≤ y then x :: y :: ys else y :: insertSorted x ys

/-- Ascending insertion sort of integer samples. -/
def sortInts (xs : List Int) : List Int := xs.foldr insertSorted []

/-- Modelled from the spec: the median of a non-empty sample — middle
element of the sorted list, or the average of the two middle elements for an
even-sized sample. -/
def medianOf (xs : List Int) : Option ℚ :=
  let s := sortInts xs
  let n := s.length
  if n = 0 then none
  else if n % 2 = 1 then some ((s.getD (n / 2) 0 : Int) : ℚ)
  else some (((s.getD (n / 2 - 1) 0 + s.getD (n / 2) 0 : Int) : ℚ) / 2)

/-- Modelled from the spec: the Statistics Engine's aggregate operation
(spec §4.4) — for a numeric attribute, the mean, median, and sum over all
features that supply a non-null value for it. -/
def aggregate_stats (g : Json) (attr : String) : Option (ℚ × ℚ × Int) :=
  let vs := numericValues (getFeatures g) attr
  match medianOf vs with
  | none => none
  | some med => some (((vs.sum : Int) : ℚ) / (vs.length : ℚ), med, vs.sum)

/-! ## Concrete fixtures used by counterexamples and witnesses -/

/-- A GeoJSON feature whose only property is `status`. -/
def statusFeat (s : String) : Json :=
  Json.object [("type", Json.str "Feature"), ("geometry", Json.null),
               ("properties", Json.object [("status", Json.str s)])]

/-- A 10-feature dataset: 7 features with `status` `"closed"`, and 3 whose
`status` is `"active"` up to letter case (`"active"`, `"Active"`,
`"active"`). -/
def statusDataset : Json :=
  Json.object [("type", Json.str "FeatureCollection"),
    ("features", Json.array (["closed", "closed", "active", "closed", "Active",
      "closed", "active", "closed", "closed", "closed"].map statusFeat))]

/-- An ArcGIS-marked payload that nevertheless carries the standard
`"type": "FeatureCollection"` tag. -/
def taggedArcPayload : Json :=
  Json.object [("type", Json.str "FeatureCollection"),
               ("features", Json.array []),
               ("geometryType", Json.str "esriGeometryPoint")]

/-- A payload with neither the canonical nor the ArcGIS shape. -/
def shapelessPayload : Json :=
  Json.object [("name", Json.str "not geo data"), ("rows", Json.num 3)]

/-- A canonical FeatureCollection (no ArcGIS marker). -/
def canonicalPayload : Json :=
  Json.object [("type", Json.str "FeatureCollection"),
               ("features", Json.array [statusFeat "active"])]

/-- A dataset whose two features carry different property keys: the first
only `a`, the second only `b`. -/
def twoKeyDataset : Json :=
  Json.object [("type", Json.str "FeatureCollection"),
    ("features", Json.array
      [Json.object [("type", Json.str "Feature"), ("geometry", Json.null),
                    ("properties", Json.object [("a", Json.num 1)])],
       Json.object [("type", Json.str "Feature"), ("geometry", Json.null),
                    ("properties", Json.object [("b", Json.num 2)])]])]

/-- A dataset with `population` values `10`, `20`, `30`, one feature whose
`population` is null, and one feature without the attribute at all. -/
def populationDataset : Json :=
  Json.object [("type", Json.str "FeatureCollection"),
    ("features", Json.array
      [Json.object [("properties", Json.object [("population", Json.num 10)])],
       Json.object [("properties", Json.object [("population", Json.null)])],
       Json.object [("properties", Json.object [("population", Json.num 20)])],
       Json.object [("properties", Json.object [("other", Json.num 7)])],
       Json.object [("properties", Json.object [("population", Json.num 30)])]])]

/-- The union of property keys observed across all features of a dataset.
This definition follows the spec's words (§3 AttributeProfile invariant, §8
first property), for comparison with `sample_attribute_names`, which is the
extraction the code actually performs. -/
def union_attribute_names (g : Json) : List String :=
  (((getFeatures g).map (fun f => (getProps f).map Prod.fst)).flatten).dedup

/-- `Except.isOk` as a plain definition over the loader's result type. -/
def isOkResult {ε α : Type} : Except ε α → Bool
  | .ok _ => true
  | .error _ => false

/-- A network in which `u2` answers HTTP 500 and every other URL returns a
well-formed (empty) FeatureCollection. -/
def net500 : String → Except String Json :=
  fun u =>
    if u = "u2" then Except.error "HTTP 500"
    else Except.ok (Json.object [("type", Json.str "FeatureCollection"),
                                 ("features", Json.array [])])

/-!
## Theorems
-/

/-- C2 (counterexample): the claim says the ArcGIS wrap happens only when
the payload *lacks* a standards-conformant top-level type tag.  The code's
test (app.py line 27) never looks at the type tag: `taggedArcPayload`
carries `"type": "FeatureCollection"` yet is still rebuilt (dropping its
`geometryType` field) instead of being passed through unchanged. -/
theorem normalize_wraps_despite_type_tag :
    taggedArcPayload.getD "type" Json.null = Json.str "FeatureCollection" ∧
    normalize taggedArcPayload ≠ taggedArcPayload ∧
    normalize taggedArcPayload =
      Json.object [("type", Json.str "FeatureCollection"),
                   ("features", Json.array [])] := by
  decide

/-- C2 (amended): the normalizer wraps a payload into
`{"type": "FeatureCollection", "features": ...}` exactly when the payload
contains both a `features` key and a `geometryType` key — regardless of any
top-level type tag — and the wrap reuses the payload's existing `features`
value unchanged; all other payloads pass through untouched. -/
theorem normalize_wrap_condition (p : Json) :
    ((p.hasKey "features" && p.hasKey "geometryType") = true →
      normalize p = Json.object [("type", Json.str "FeatureCollection"),
                                 ("features", p.getD "features" Json.null)]) ∧
    ((p.hasKey "features" && p.hasKey "geometryType") = false →
      normalize p = p) := by
  constructor <;> intro h <;> simp [normalize, h]

/-- C2 (witness): instantiating `normalize_wrap_condition` on the tagged
ArcGIS payload. -/
theorem normalize_wrap_condition_witness :
    normalize taggedArcPayload =
      Json.object [("type", Json.str "FeatureCollection"),
                   ("features", taggedArcPayload.getD "features" Json.null)] :=
  (normalize_wrap_condition taggedArcPayload).1 (by decide)

/-- C6 (counterexample): a payload with neither the canonical nor the
ArcGIS shape is returned unchanged by the normalization step of
`fetch_geojson_data` — the function is total and has no error path (app.py
line 34 `return data`), so no `MalformedDataError` (or any failure) occurs. -/
theorem normalize_no_error_on_malformed :
    shapelessPayload.hasKey "features" = false ∧
    normalize shapelessPayload = shapelessPayload := by
  decide

/-- C6 (amended): a payload with no top-level `features` key (hence neither
the canonical nor the ArcGIS shape) is passed through unchanged rather than
rejected; normalization never fails. -/
theorem normalize_passthrough_malformed (p : Json)
    (h : p.hasKey "features" = false) :
    normalize p = p := by
  simp [normalize, h]

/-- C6 (witness): `normalize_passthrough_malformed` on the shapeless
payload. -/
theorem normalize_passthrough_malformed_witness :
    normalize shapelessPayload = shapelessPayload :=
  normalize_passthrough_malformed shapelessPayload (by decide)

/-- C7: normalization is the identity on payloads already in canonical
form — a payload that declares itself a FeatureCollection and carries no
ArcGIS `geometryType` marker is returned unchanged, so `type` and
`features` round-trip exactly. -/
theorem normalize_identity_on_canonical (p : Json)
    (_htype : p.getD "type" Json.null = Json.str "FeatureCollection")
    (harc : p.hasKey "geometryType" = false) :
    normalize p = p := by
  simp [normalize, harc]

/-- C7 (witness): `normalize_identity_on_canonical` on a concrete canonical
FeatureCollection. -/
theorem normalize_identity_on_canonical_witness :
    normalize canonicalPayload = canonicalPayload :=
  normalize_identity_on_canonical canonicalPayload (by decide) (by decide)

/-- Mapping a result does not change whether it is a success. -/
theorem isOkResult_map {ε α β : Type} (f : α → β) (r : Except ε α) :
    isOkResult (r.map f) = isOkResult r := by
  cases r <;> rfl

/-- A gather succeeds exactly when every gathered task succeeded. -/
theorem gatherResults_isOk {ε α : Type} (rs : List (Except ε α)) :
    isOkResult (gatherResults rs) = true ↔ ∀ r ∈ rs, isOkResult r = true := by
  induction rs with
  | nil => simp [gatherResults, isOkResult]
  | cons r rest ih =>
      cases r with
      | error e => simp [gatherResults, isOkResult]
      | ok a =>
          rw [show gatherResults (Except.ok a :: rest) =
                (gatherResults rest).map (fun l => a :: l) from rfl,
            isOkResult_map, ih]
          simp [isOkResult]

/-- Gathering a list of pure successes returns exactly that list. -/
theorem gatherResults_ok {ε α : Type} (l : List α) :
    gatherResults (ε := ε) (l.map Except.ok) = Except.ok l := by
  induction l with
  | nil => rfl
  | cons a l ih => simp [gatherResults, ih, Except.map]

/-- C1 (counterexample): three URLs of which exactly one (`u2`) answers
HTTP 500.  The claim says the load yields two successful payloads and one
fetch error; but `asyncio.gather` with its default `return_exceptions=False`
(app.py line 124) propagates the failure, so the whole load fails and the
two successful siblings are lost — there is no per-URL result. -/
theorem load_geojsons_fails_as_a_whole :
    isOkResult (net500 "u1") = true ∧ isOkResult (net500 "u3") = true ∧
    load_geojsons net500 ["u1", "u2", "u3"] = Except.error "HTTP 500" :=
  ⟨rfl, rfl, rfl⟩

/-- C1 (amended): the load operation is all-or-nothing — it succeeds exactly
when every fetch dispatched for a non-blank URL succeeds; a single failure
(network error, non-2xx status, malformed JSON) makes the whole load fail,
discarding the successful siblings. -/
theorem load_geojsons_all_or_nothing {ε : Type} (net : String → Except ε Json)
    (urls : List String) :
    isOkResult (load_geojsons net urls) = true ↔
      ∀ u ∈ urls.filter keepUrl, isOkResult (net u) = true := by
  unfold load_geojsons
  rw [gatherResults_isOk]
  constructor
  · intro h u hu
    have := h _ (List.mem_map_of_mem (fetch_geojson_data net) hu)
    rwa [fetch_geojson_data, isOkResult_map] at this
  · intro h r hr
    obtain ⟨u, hu, rfl⟩ := List.mem_map.mp hr
    rw [fetch_geojson_data, isOkResult_map]
    exact h u hu

/-- C1 (witness): `load_geojsons_all_or_nothing` on the HTTP-500 network —
the batch containing `u2` is not a success, while the batch avoiding `u2`
is. -/
theorem load_geojsons_all_or_nothing_witness :
    isOkResult (load_geojsons net500 ["u1", "u2", "u3"]) = false ∧
    isOkResult (load_geojsons net500 ["u1", "u3"]) = true := by
  constructor
  · have h := load_geojsons_all_or_nothing net500 ["u1", "u2", "u3"]
    revert h
    decide
  · exact (load_geojsons_all_or_nothing net500 ["u1", "u3"]).mpr (by decide)

/-- C9: the load operation dispatches a fetch for exactly the URLs that are
not empty and not whitespace-only — a blank URL is dropped before dispatch
and has no effect on the result — and when the fetches succeed the returned
payloads are in exactly the order the surviving URLs appear in the input. -/
theorem load_geojsons_filter_and_order {ε : Type} (g : String → Json)
    (urls : List String) :
    load_geojsons (ε := ε) (fun u => Except.ok (g u)) urls =
      Except.ok ((urls.filter keepUrl).map (fun u => normalize (g u))) ∧
    ∀ u, keepUrl u = false → ∀ net : String → Except ε Json,
      ∀ more : List String,
        load_geojsons net (u :: more) = load_geojsons net more := by
  constructor
  · unfold load_geojsons
    rw [show ((urls.filter keepUrl).map
          (fetch_geojson_data (fun u => Except.ok (g u)))) =
        ((urls.filter keepUrl).map (fun u => normalize (g u))).map Except.ok by
      simp [fetch_geojson_data, Except.map]]
    exact gatherResults_ok _
  · intro u hu net more
    simp [load_geojsons, List.filter_cons, hu]

/-- C9 (witness): `load_geojsons_filter_and_order` on a concrete URL list
containing a whitespace-only entry. -/
theorem load_geojsons_filter_and_order_witness :
    load_geojsons (ε := String) (fun u => Except.ok (Json.str u))
        ["a", " ", "b"] =
      Except.ok [normalize (Json.str "a"), normalize (Json.str "b")] ∧
    load_geojsons net500 ["   ", "u1"] = load_geojsons net500 ["u1"] := by
  have h := load_geojsons_filter_and_order (ε := String)
    (fun u => Json.str u) ["a", " ", "b"]
  exact ⟨h.1, h.2 "   " (by decide) net500 ["u1"]⟩

/-- C3 (counterexample): `process_query` derives the presented attribute
names from the first feature only (app.py line 103).  On a dataset whose
first feature has key `a` and second feature key `b`, the summary presents
`["a"]`, not the union `["a", "b"]`. -/
theorem profile_attributes_not_union :
    sample_attribute_names twoKeyDataset = ["a"] ∧
    union_attribute_names twoKeyDataset = ["a", "b"] ∧
    sample_attribute_names twoKeyDataset ≠ union_attribute_names twoKeyDataset := by
  decide

/-- C3 (amended): the attribute names presented in the profile summary are
exactly the property keys of the dataset's first feature — a subset of the
union of property keys across all features, but not necessarily all of it.
(Re-profiling is trivially idempotent: the extraction is a pure function of
the dataset.) -/
theorem profile_attributes_first_feature (g f : Json) (fs : List Json)
    (h : getFeatures g = f :: fs) :
    sample_attribute_names g = (getProps f).map Prod.fst ∧
    ∀ a ∈ sample_attribute_names g, a ∈ union_attribute_names g := by
  have h1 : sample_attribute_names g = (getProps f).map Prod.fst := by
    simp [sample_attribute_names, h]
  refine ⟨h1, fun a ha => ?_⟩
  rw [h1] at ha
  unfold union_attribute_names
  rw [List.mem_dedup, List.mem_flatten]
  exact ⟨(getProps f).map Prod.fst, by simp [h], ha⟩

/-- C3 (witness): `profile_attributes_first_feature` on the two-key
dataset. -/
theorem profile_attributes_first_feature_witness :
    sample_attribute_names twoKeyDataset = ["a"] ∧
    ∀ a ∈ sample_attribute_names twoKeyDataset,
      a ∈ union_attribute_names twoKeyDataset := by
  have h := profile_attributes_first_feature twoKeyDataset
    (Json.object [("type", Json.str "Feature"), ("geometry", Json.null),
                  ("properties", Json.object [("a", Json.num 1)])])
    [Json.object [("type", Json.str "Feature"), ("geometry", Json.null),
                  ("properties", Json.object [("b", Json.num 2)])]]
    (by decide)
  exact ⟨h.1.trans (by decide), h.2⟩

/-- C4 (counterexample): `statusDataset` has 10 features of which exactly 3
have `status` equal to `"active"` up to letter case.  The claim says the
counting operation is case-insensitive, so counting `status`/`"Active"`
should return 3; the code (app.py line 85) compares with plain `==` against
the first-encountered spelling `"active"` and returns 2, missing the
`"Active"` feature. -/
theorem count_not_case_insensitive :
    analyze_geojson [statusDataset] "How many features have status:Active?" =
      some "Based on the analysis, there are 2 features where status is active." ∧
    analyze_geojson [statusDataset] "How many features have status:Active?" ≠
      some "Based on the analysis, there are 3 features where status is active." := by
  constructor
  · rfl
  · decide

/-- C4 (amended): the counting operation compares attribute values to the
target case-sensitively, by exact string equality: a string property value
matches exactly when it equals the target letter-for-letter, and a numeric
property value never matches the (string) target — no numeric equality is
attempted.  On the 10-feature dataset, the count for the matched entry
`status:active` is the number of exact `"active"` matches. -/
theorem count_compares_exact_strings :
    analyze_geojson [statusDataset] "How many features have status:Active?" =
      some ("Based on the analysis, there are " ++
        toString (countMatch (features_of [statusDataset]) "status" "active") ++
        " features where status is active.") ∧
    (∀ f key v s, lookupProp f key = some (Json.str s) →
      (featureMatches key v f = true ↔ s = v)) ∧
    (∀ f key v n, lookupProp f key = some (Json.num n) →
      featureMatches key v f = false) := by
  refine ⟨rfl, fun f key v s h => ?_, fun f key v n h => ?_⟩
  · simp [featureMatches, h]
  · simp [featureMatches, h]

/-- C4 (witness): `count_compares_exact_strings` instantiated on a feature
whose `status` is the lower-case string `"active"`, against the target
`"Active"`. -/
theorem count_compares_exact_strings_witness :
    (featureMatches "status" "Active" (statusFeat "active") = true ↔
      "active" = "Active") ∧
    featureMatches "pop" "3"
      (Json.object [("properties", Json.object [("pop", Json.num 3)])]) = false := by
  exact ⟨count_compares_exact_strings.2.1 (statusFeat "active") "status" "Active"
      "active" (by decide),
    count_compares_exact_strings.2.2
      (Json.object [("properties", Json.object [("pop", Json.num 3)])])
      "pop" "3" 3 (by decide)⟩

/-- C5 (counterexample): on a counting question with a known attribute and
an adjacent recognizable token (`status:Active`), the claim says the answer
is produced deterministically and the Reasoning Delegate is never invoked.
In the code `process_query` calls the delegate unconditionally (app.py line
116): the deterministic count is computed, yet the final answer still
contains — and varies with — the delegate's reply, which is impossible if
the delegate were not invoked. -/
theorem delegate_invoked_on_counting_query :
    process_query (fun _ => "REPLY-ONE")
        "How many features have status:Active?" [statusDataset] =
      some ("REPLY-ONE\n\nBased on the analysis, there are 2 features where status is active.") ∧
    process_query (fun _ => "REPLY-ONE")
        "How many features have status:Active?" [statusDataset] ≠
      process_query (fun _ => "REPLY-TWO")
        "How many features have status:Active?" [statusDataset] := by
  constructor
  · rfl
  · decide

/-- C5 (amended): the Reasoning Delegate is invoked for *every* question
that completes analysis — the deterministic analysis result is folded into
the delegate's prompt and appended to its reply, never used to skip
delegation; in particular a question containing neither counting nor
statistic keywords always reaches the delegate (with the generic
no-analysis message attached). -/
theorem process_query_always_delegates (delegate : String → String)
    (prompt : String) (datasets : List Json) :
    (∀ r, analyze_geojson datasets prompt = some r →
      process_query delegate prompt datasets =
        some (delegate (build_ai_prompt prompt datasets r) ++ "\n\n" ++ r)) ∧
    (hasCountKeyword prompt = false →
      process_query delegate prompt datasets =
        some (delegate (build_ai_prompt prompt datasets no_analysis_msg) ++
          "\n\n" ++ no_analysis_msg)) := by
  constructor
  · intro r h
    simp [process_query, h]
  · intro h
    have ha : analyze_geojson datasets prompt = some no_analysis_msg := by
      simp [analyze_geojson, h]
    simp [process_query, ha]

/-- C5 (witness): `process_query_always_delegates` on a keyword-free
question — the delegate's reply opens the produced answer. -/
theorem process_query_always_delegates_witness :
    process_query (fun _ => "HELLO-REPLY") "what is this data about?"
        [statusDataset] =
      some ("HELLO-REPLY" ++ "\n\n" ++ no_analysis_msg) :=
  (process_query_always_delegates (fun _ => "HELLO-REPLY")
    "what is this data about?" [statusDataset]).2 (by decide)

/-- The match loop finds nothing when no candidate occurs in the query. -/
theorem firstMatch_eq_none (ql : String) (ms : List String)
    (h : ∀ m ∈ ms, isSubstr (pyLower m) ql = false) :
    firstMatch ql ms = none := by
  induction ms with
  | nil => rfl
  | cons m ms ih =>
      simp [firstMatch, h m (List.mem_cons_self m ms)]
      exact ih (fun x hx => h x (List.mem_cons_of_mem m hx))

/-- C10: on a counting question, when at least one feature is loaded but
none of the five most frequent `key:value` property strings occurs
(case-insensitively) in the question, `analyze_geojson` falls back to
reporting the total number of features across all loaded datasets (app.py
line 89) rather than an error or a non-answer. -/
theorem analyze_total_count_fallback (datasets : List Json) (query : String)
    (h1 : hasCountKeyword query = true)
    (h2 : features_of datasets ≠ [])
    (h3 : ∀ m ∈ potential_matches (features_of datasets),
      isSubstr (pyLower m) (pyLower query) = false) :
    analyze_geojson datasets query =
      some ("The total number of features across all provided GeoJSON datasets is " ++
        toString (features_of datasets).length ++ ".") := by
  have hfm := firstMatch_eq_none (pyLower query) _ h3
  have hne : (features_of datasets).isEmpty = false := by
    cases hfe : features_of datasets with
    | nil => exact absurd hfe h2
    | cons a l => rfl
  simp [analyze_geojson, h1, hne, hfm]

/-- C10 (witness): `analyze_total_count_fallback` on the 10-feature status
dataset and a counting question matching none of its property strings. -/
theorem analyze_total_count_fallback_witness :
    analyze_geojson [statusDataset] "how many roads are there?" =
      some "The total number of features across all provided GeoJSON datasets is 10." := by
  have h := analyze_total_count_fallback [statusDataset]
    "how many roads are there?" (by decide) (by decide) (by decide)
  exact h.trans (by rfl)

/-- C8: the aggregate operation (modelled from the spec — see
`aggregate_stats`) over the attribute `population` with non-null values
`[10, 20, 30]` — the dataset also carries a null `population` and a feature
without the attribute, both of which are excluded — returns mean `20`,
median `20`, and sum `60`. -/
theorem aggregate_stats_population_example :
    aggregate_stats populationDataset "population" = some (20, 20, 60) := by
  have hv : numericValues (getFeatures populationDataset) "population" =
      [10, 20, 30] := by decide
  have hm : medianOf [10, 20, 30] = some 20 := by decide
  have hs : ([10, 20, 30] : List Int).sum = 60 := by decide
  simp only [aggregate_stats, hv, hm, hs, List.length_cons, List.length_nil]
  norm_num

end GeoChat
